import Mathlib

/-!
Shallow embedding of the region-addressing core of UnifiedImageReader
(`src/unified_image_reader`): the region geometry functions of
`ImageReader` / `ImageReaderAdaptive`, the type-classification helpers of
`types.py`, the format-dispatch logic, the directory reader's
construction, and the `Image` facade's iteration protocol.

Python integers are modelled as `Int`; Python floor division `//` is
`Int.fdiv` (both round toward negative infinity) and raises
`ZeroDivisionError` on a zero divisor; Python `%` is `Int.fmod`.
Raising an exception is modelled with `Except Err`.
-/

namespace UnifiedImageReader

/-- Exception kinds raised by the package.  `indexError` is the
out-of-bounds `IndexError` raised by `not_valid()` and by the directory
reader; `typeError` is what `types.raise_type_error` raises;
`invalidCoordinates` / `invalidDimensions` are
`InvalidCoordinatesException` / `InvalidDimensionsException`;
`attributeError` is Python's error for reading an instance attribute
that was never assigned. -/
inductive Err where
  | unsupportedFormat (token : String)
  | invalidCoordinates
  | invalidDimensions
  | indexError
  | typeError
  | zeroDivisionError
  | attributeError (attr : String)
  | assertionError
  | directoryDoesNotExist
  | fileDoesNotExist
  | notImplemented
  deriving DecidableEq, Repr

/-! ## RegionGeometry: `ImageReader.number_of_regions`,
`ImageReader.region_index_to_coordinates`, `ImageReader.validate_region`
(src/unified_image_reader/image_reader.py; `ImageReaderAdaptive` has
byte-identical bodies for the first two). -/

/-- Embeds `ImageReader.number_of_regions`:
`width, height = region_dims; return (self.width // width) * (self.height // height)`.
Python `//` raises `ZeroDivisionError` exactly when the divisor is zero,
and otherwise floors (also for negative divisors). -/
def number_of_regions (imageWidth imageHeight : Int) (region_dims : Int × Int) :
    Except Err Int :=
  let width := region_dims.1
  let height := region_dims.2
  if width = 0 ∨ height = 0 then .error .zeroDivisionError
  else .ok ((imageWidth.fdiv width) * (imageHeight.fdiv height))

/-- Embeds `ImageReader.region_index_to_coordinates`:
`width_regions = self.width // region_width;`
`left = (region_index % width_regions) * region_width;`
`top = (region_index // width_regions) * region_height`.
Either division raises `ZeroDivisionError` on a zero divisor. -/
def region_index_to_coordinates (imageWidth : Int) (region_index : Int)
    (region_dims : Int × Int) : Except Err (Int × Int) :=
  let region_width := region_dims.1
  let region_height := region_dims.2
  if region_width = 0 then .error .zeroDivisionError
  else
    let width_regions := imageWidth.fdiv region_width
    if width_regions = 0 then .error .zeroDivisionError
    else .ok ((region_index.fmod width_regions) * region_width,
              (region_index.fdiv width_regions) * region_height)

/-- Embeds `ImageReader.validate_region` for integer-valued inputs.
Coordinates and dims arrive as Python sequences, so they are `List Int`
here; the source checks, in order: `len(region_coordinates) == 2`
(else `InvalidCoordinatesException`), `0 <= left < self.width`,
`0 <= top < self.height` (else `IndexError` via `not_valid()`),
`len(region_dims) == 2` (else `InvalidDimensionsException`),
`0 < region_width and left+region_width <= self.width`,
`0 < region_height and top+region_height <= self.height`
(else `IndexError`). -/
def validate_region (imageWidth imageHeight : Int)
    (region_coordinates region_dims : List Int) : Except Err Unit :=
  if region_coordinates.length ≠ 2 then .error .invalidCoordinates
  else
    let left := region_coordinates.getD 0 0
    let top := region_coordinates.getD 1 0
    if ¬ (0 ≤ left ∧ left < imageWidth) then .error .indexError
    else if ¬ (0 ≤ top ∧ top < imageHeight) then .error .indexError
    else if region_dims.length ≠ 2 then .error .invalidDimensions
    else
      let region_width := region_dims.getD 0 0
      let region_height := region_dims.getD 1 0
      if ¬ (0 < region_width ∧ left + region_width ≤ imageWidth) then
        .error .indexError
      else if ¬ (0 < region_height ∧ top + region_height ≤ imageHeight) then
        .error .indexError
      else .ok ()

/-! ## Theorems for claims C1, C3, C5 (region geometry). -/

/-- Claim C1: for every image with width `W > 0` and height `H > 0`, every
region_dims `(rw, rh)` with `0 < rw ≤ W` and `0 < rh ≤ H`, and every index
`i` with `0 ≤ i < number_of_regions((rw, rh))`: converting `i` to
coordinates with `region_index_to_coordinates` and then calling
`validate_region` on the result with the same dims raises no error. -/
theorem c1_in_range_index_validates
    (W H rw rh i : Int)
    (hW : 0 < W) (hH : 0 < H)
    (hrw : 0 < rw) (hrwW : rw ≤ W)
    (hrh : 0 < rh) (hrhH : rh ≤ H)
    (hi0 : 0 ≤ i)
    (hiN : i < (W.fdiv rw) * (H.fdiv rh)) :
    number_of_regions W H (rw, rh) = .ok ((W.fdiv rw) * (H.fdiv rh)) ∧
    ∃ l t, region_index_to_coordinates W i (rw, rh) = .ok (l, t) ∧
      validate_region W H [l, t] [rw, rh] = .ok () := by
  have hrw0 : rw ≠ 0 := hrw.ne'
  have hrh0 : rh ≠ 0 := hrh.ne'
  have hfdW : W.fdiv rw = W / rw := Int.fdiv_eq_ediv W hrw.le
  have hfdH : H.fdiv rh = H / rh := Int.fdiv_eq_ediv H hrh.le
  have hwr : 0 < W / rw := by
    have h1 : (1 : Int) ≤ W / rw := (Int.le_ediv_iff_mul_le hrw).2 (by linarith)
    linarith
  have hwr0 : W / rw ≠ 0 := hwr.ne'
  have hfmod : i.fmod (W / rw) = i % (W / rw) := Int.fmod_eq_emod i hwr.le
  have hfdiv : i.fdiv (W / rw) = i / (W / rw) := Int.fdiv_eq_ediv i hwr.le
  have hnor : number_of_regions W H (rw, rh) = .ok ((W.fdiv rw) * (H.fdiv rh)) := by
    have hcond : ¬ (rw = 0 ∨ rh = 0) := by
      push_neg
      exact ⟨hrw0, hrh0⟩
    simp [number_of_regions, hcond]
  have hcoords : region_index_to_coordinates W i (rw, rh) =
      .ok ((i % (W / rw)) * rw, (i / (W / rw)) * rh) := by
    simp only [region_index_to_coordinates, hfdW]
    rw [if_neg hrw0, if_neg hwr0, hfmod, hfdiv]
  have hm0 : 0 ≤ i % (W / rw) := Int.emod_nonneg i hwr0
  have hmlt : i % (W / rw) < W / rw := Int.emod_lt_of_pos i hwr
  have hl0 : 0 ≤ (i % (W / rw)) * rw := mul_nonneg hm0 hrw.le
  have hlrw : (i % (W / rw)) * rw + rw ≤ W := by
    have h1 : i % (W / rw) + 1 ≤ W / rw := hmlt
    have h2 : (i % (W / rw) + 1) * rw ≤ (W / rw) * rw :=
      mul_le_mul_of_nonneg_right h1 hrw.le
    have h3 : (W / rw) * rw ≤ W := Int.ediv_mul_le W hrw0
    have h4 : (i % (W / rw)) * rw + rw = (i % (W / rw) + 1) * rw := by ring
    linarith
  have hlW : (i % (W / rw)) * rw < W := by linarith
  have hq0 : 0 ≤ i / (W / rw) := Int.ediv_nonneg hi0 hwr.le
  have hqlt : i / (W / rw) < H / rh := by
    rw [Int.ediv_lt_iff_lt_mul hwr]
    rw [hfdW, hfdH, mul_comm] at hiN
    exact hiN
  have ht0 : 0 ≤ (i / (W / rw)) * rh := mul_nonneg hq0 hrh.le
  have htrh : (i / (W / rw)) * rh + rh ≤ H := by
    have h1 : i / (W / rw) + 1 ≤ H / rh := hqlt
    have h2 : (i / (W / rw) + 1) * rh ≤ (H / rh) * rh :=
      mul_le_mul_of_nonneg_right h1 hrh.le
    have h3 : (H / rh) * rh ≤ H := Int.ediv_mul_le H hrh0
    have h4 : (i / (W / rw)) * rh + rh = (i / (W / rw) + 1) * rh := by ring
    linarith
  have htH : (i / (W / rw)) * rh < H := by linarith
  refine ⟨hnor, (i % (W / rw)) * rw, (i / (W / rw)) * rh, hcoords, ?_⟩
  simp [validate_region, hl0, hlW, ht0, htH, hrw, hrh, hlrw, htrh]

/-- Witness for C1 at `W = H = 4`, `rw = rh = 2`, `i = 3`. -/
theorem c1_in_range_index_validates_witness :
    number_of_regions 4 4 (2, 2) = .ok (((4 : Int).fdiv 2) * ((4 : Int).fdiv 2)) ∧
    ∃ l t, region_index_to_coordinates 4 3 (2, 2) = .ok (l, t) ∧
      validate_region 4 4 [l, t] [2, 2] = .ok () :=
  c1_in_range_index_validates 4 4 2 2 3 (by decide) (by decide) (by decide)
    (by decide) (by decide) (by decide) (by decide) (by decide)

/-- Claim C3 counterexample: with `region_dims = (-1, 1)` (so
`region_width ≤ 0`), `number_of_regions` on a 100×100 image does not fail:
Python floor division by a negative divisor raises nothing, and the call
returns `-10000`.  The claim says it fails whenever `region_width ≤ 0`. -/
theorem c3_negative_width_no_failure :
    ((-1 : Int) ≤ 0) ∧
    number_of_regions 100 100 (-1, 1) = .ok (-10000) := by
  refine ⟨by decide, ?_⟩
  rfl

/-- Claim C3 amended: `number_of_regions` returns
`(W // rw) * (H // rh)` with floor division whenever `rw ≠ 0` and
`rh ≠ 0` (in particular whenever both are positive), and it fails
(`ZeroDivisionError`) exactly when `rw = 0` or `rh = 0`; a negative
region dimension does not fail. -/
theorem c3_number_of_regions_floor
    (W H rw rh : Int) (hrw : 0 < rw) (hrh : 0 < rh) :
    number_of_regions W H (rw, rh) = .ok ((W.fdiv rw) * (H.fdiv rh)) ∧
    (∀ rw' rh' : Int,
      (∃ e, number_of_regions W H (rw', rh') = .error e) ↔ (rw' = 0 ∨ rh' = 0)) := by
  constructor
  · have hcond : ¬ (rw = 0 ∨ rh = 0) := by
      push_neg
      exact ⟨hrw.ne', hrh.ne'⟩
    simp [number_of_regions, hcond]
  · intro rw' rh'
    constructor
    · rintro ⟨e, he⟩
      by_contra hc
      push_neg at hc
      simp [number_of_regions, hc.1, hc.2] at he
    · intro h
      exact ⟨.zeroDivisionError, by simp [number_of_regions, h]⟩

/-- Witness for C3 (amended) at `W = H = 100`, `rw = 3`, `rh = 2`. -/
theorem c3_number_of_regions_floor_witness :
    number_of_regions 100 100 (3, 2) = .ok (((100 : Int).fdiv 3) * ((100 : Int).fdiv 2)) ∧
    (∀ rw' rh' : Int,
      (∃ e, number_of_regions 100 100 (rw', rh') = .error e) ↔ (rw' = 0 ∨ rh' = 0)) :=
  c3_number_of_regions_floor 100 100 3 2 (by decide) (by decide)

/-- Claim C5: with an in-range top-left corner `(left, top)` and a region
height that fits vertically, `validate_region` succeeds when
`left + region_width = W` (exact fit at the right edge) and fails with the
out-of-bounds `IndexError` when `left + region_width = W + 1`. -/
theorem c5_right_edge_boundary
    (W H left top rh : Int)
    (hl0 : 0 ≤ left) (hlW : left < W)
    (ht0 : 0 ≤ top) (htH : top < H)
    (hrh : 0 < rh) (hfit : top + rh ≤ H) :
    validate_region W H [left, top] [W - left, rh] = .ok () ∧
    validate_region W H [left, top] [W - left + 1, rh] = .error .indexError := by
  have h1 : 0 < W - left := by linarith
  have h2 : left + (W - left) ≤ W := by linarith
  have h3 : 0 < W - left + 1 := by linarith
  have h4 : ¬ (left + (W - left + 1) ≤ W) := by linarith
  constructor
  · simp [validate_region, hl0, hlW, ht0, htH, hrh, hfit, h1, h2]
  · simp [validate_region, hl0, hlW, ht0, htH, h3, h4]

/-- Witness for C5 at `W = H = 10`, `(left, top) = (4, 1)`, `rh = 9`. -/
theorem c5_right_edge_boundary_witness :
    validate_region 10 10 [4, 1] [10 - 4, 9] = .ok () ∧
    validate_region 10 10 [4, 1] [10 - 4 + 1, 9] = .error .indexError :=
  c5_right_edge_boundary 10 10 4 1 9 (by decide) (by decide) (by decide)
    (by decide) (by decide) (by decide)

/-! ## types.py: Python values and the classification helpers.
Python numbers reaching these functions are ints or floats; every float
the claims involve (2.0, 2.5, ...) is exactly representable, so a float
is modelled by the rational it denotes and `float.is_integer` by the
denominator being 1.  A region identifier is a number or a tuple of
numbers. -/

/-- A Python number: an `int` or a `float` (by the rational it denotes). -/
inductive PyNum where
  | intVal (n : Int)
  | floatVal (q : ℚ)
  deriving DecidableEq, Repr

/-- Numeric value of a `PyNum`, for the comparison operators. -/
def PyNum.toQ : PyNum → ℚ
  | .intVal n => (n : ℚ)
  | .floatVal q => q

/-- Embeds `isinstance(e, int)` on a number (floats are not ints). -/
def PyNum.isInstInt : PyNum → Bool
  | .intVal _ => true
  | .floatVal _ => false

/-- A Python value passed as a region identifier, coordinates or dims:
a number or a tuple of numbers. -/
inductive PyVal where
  | num (x : PyNum)
  | tup (xs : List PyNum)
  deriving DecidableEq, Repr

/-- Embeds `types.is_region_index`:
`if isinstance(obj, float): return float.is_integer(obj);`
`return isinstance(obj, int)`.  A tuple is neither, giving `False`. -/
def is_region_index : PyVal → Bool
  | .num (.floatVal q) => q.den == 1
  | .num (.intVal _) => true
  | .tup _ => false

/-- Embeds `types.is_iterable_of_certain_length_and_type`.  Numbers are
not `Iterable`; the source then tests `len(obj) == 2` — the hardcoded 2
(ignoring the `length` parameter) is kept faithfully — and, when an
element type is requested, `isinstance(e, element_type)` per element
(always `int` at the call sites). -/
def is_iterable_of_certain_length_and_type
    (obj : PyVal) (length : Nat) (checkInt : Bool) : Bool :=
  match obj with
  | .num _ => false
  | .tup xs => xs.length == 2 && (!checkInt || xs.all PyNum.isInstInt)

/-- Embeds `types.is_region_coordinates`:
`is_iterable_of_certain_length_and_type(obj, 2, int)`. -/
def is_region_coordinates (obj : PyVal) : Bool :=
  is_iterable_of_certain_length_and_type obj 2 true

/-- Embeds `types.is_region_dimensions`:
`is_iterable_of_certain_length_and_type(obj, 2, int)`. -/
def is_region_dimensions (obj : PyVal) : Bool :=
  is_iterable_of_certain_length_and_type obj 2 true

/-- Embeds `ImageReaderAdaptive._validate_region`
(src/unified_image_reader/image_reader_adaptive.py): shape checks first
(`is_region_coordinates`, then `is_region_dimensions`, each raising via
`raise_type_error` on failure), then the same four bounds checks as the
base `validate_region`.  The final fallback is unreachable: the shape
checks guarantee both arguments are two-element tuples. -/
def ImageReaderAdaptive_validate_region (imageWidth imageHeight : Int)
    (region_coordinates region_dims : PyVal) : Except Err Unit :=
  if is_region_coordinates region_coordinates = false then .error .typeError
  else if is_region_dimensions region_dims = false then .error .typeError
  else
    match region_coordinates, region_dims with
    | .tup cs, .tup ds =>
      let left := (cs.getD 0 (.intVal 0)).toQ
      let top := (cs.getD 1 (.intVal 0)).toQ
      let region_width := (ds.getD 0 (.intVal 0)).toQ
      let region_height := (ds.getD 1 (.intVal 0)).toQ
      if ¬ (0 ≤ left ∧ left < (imageWidth : ℚ)) then .error .indexError
      else if ¬ (0 ≤ top ∧ top < (imageHeight : ℚ)) then .error .indexError
      else if ¬ (0 < region_width ∧ left + region_width ≤ (imageWidth : ℚ)) then
        .error .indexError
      else if ¬ (0 < region_height ∧ top + region_height ≤ (imageHeight : ℚ)) then
        .error .indexError
      else .ok ()
    | _, _ => .error .typeError

/-- Branch taken by `get_region` on its `region_identifier` argument, in
both `ImageReader.get_region` and `ImageReaderAdaptive.get_region`:
`if is_region_index(...): ...index path...`
`elif is_region_coordinates(...): ...coordinate path...`
`else: raise_type_error(...)`. -/
inductive IdentifierBranch where
  | asIndex
  | asCoordinates
  | rejected
  deriving DecidableEq, Repr

/-- Embeds the dispatch at the top of `get_region`. -/
def get_region_dispatch (region_identifier : PyVal) : IdentifierBranch :=
  if is_region_index region_identifier then .asIndex
  else if is_region_coordinates region_identifier then .asCoordinates
  else .rejected

/-! ## Theorems for claims C6 and C9. -/

/-- Claim C6: a 1- or 3-element coordinates value makes the base
`validate_region` fail with `InvalidCoordinatesException` whatever the
image bounds are (the shape check precedes every bounds check); with
in-bounds coordinates, a dims value of the wrong length fails with
`InvalidDimensionsException`; and in `ImageReaderAdaptive._validate_region`
any value failing the two-integer-pair coordinate (resp. dims) check
fails with the shape type error before any bounds are checked. -/
theorem c6_shape_checks_precede_bounds :
    (∀ (W H : Int) (cs ds : List Int), (cs.length = 1 ∨ cs.length = 3) →
      validate_region W H cs ds = .error .invalidCoordinates) ∧
    (∀ (W H left top : Int) (ds : List Int),
      0 ≤ left → left < W → 0 ≤ top → top < H → ds.length ≠ 2 →
      validate_region W H [left, top] ds = .error .invalidDimensions) ∧
    (∀ (W H : Int) (c d : PyVal), is_region_coordinates c = false →
      ImageReaderAdaptive_validate_region W H c d = .error .typeError) ∧
    (∀ (W H : Int) (c d : PyVal), is_region_coordinates c = true →
      is_region_dimensions d = false →
      ImageReaderAdaptive_validate_region W H c d = .error .typeError) := by
  refine ⟨?_, ?_, ?_, ?_⟩
  · intro W H cs ds hcs
    rcases hcs with h | h <;> simp [validate_region, h]
  · intro W H left top ds hl0 hlW ht0 htH hds
    simp [validate_region, hl0, hlW, ht0, htH, hds]
  · intro W H c d hc
    simp [ImageReaderAdaptive_validate_region, hc]
  · intro W H c d hc hd
    simp [ImageReaderAdaptive_validate_region, hc, hd]

/-- Witness for C6: a 3-element coordinate tuple, a 1-element dims tuple,
and the adaptive validator on the same shapes, on a 10×10 image. -/
theorem c6_shape_checks_precede_bounds_witness :
    validate_region 10 10 [1, 2, 3] [2, 2] = .error .invalidCoordinates ∧
    validate_region 10 10 [1, 2] [2] = .error .invalidDimensions ∧
    ImageReaderAdaptive_validate_region 10 10
      (.tup [.intVal 1, .intVal 2, .intVal 3]) (.tup [.intVal 2, .intVal 2]) =
      .error .typeError ∧
    ImageReaderAdaptive_validate_region 10 10
      (.tup [.intVal 1, .intVal 2]) (.tup [.intVal 2]) = .error .typeError :=
  ⟨c6_shape_checks_precede_bounds.1 10 10 [1, 2, 3] [2, 2] (by decide),
   c6_shape_checks_precede_bounds.2.1 10 10 1 2 [2] (by decide) (by decide)
     (by decide) (by decide) (by decide),
   c6_shape_checks_precede_bounds.2.2.1 10 10
     (.tup [.intVal 1, .intVal 2, .intVal 3]) (.tup [.intVal 2, .intVal 2])
     (by decide),
   c6_shape_checks_precede_bounds.2.2.2 10 10
     (.tup [.intVal 1, .intVal 2]) (.tup [.intVal 2]) (by decide) (by decide)⟩

/-- Claim C9: `is_region_index` classifies any float with an integral
value (such as 2.0) as a region index, so `get_region`'s dispatch takes
the index path for it instead of rejecting it; every int takes the index
path; a non-integral float is rejected (it is neither an index nor
coordinates); a two-int tuple takes the coordinate path; any other tuple
is rejected. -/
theorem c9_integral_float_is_region_index :
    get_region_dispatch (.num (.floatVal 2)) = .asIndex ∧
    (∀ q : ℚ, q.den = 1 → get_region_dispatch (.num (.floatVal q)) = .asIndex) ∧
    (∀ n : Int, get_region_dispatch (.num (.intVal n)) = .asIndex) ∧
    (∀ q : ℚ, q.den ≠ 1 → get_region_dispatch (.num (.floatVal q)) = .rejected) ∧
    (∀ a b : Int, get_region_dispatch (.tup [.intVal a, .intVal b]) = .asCoordinates) ∧
    (∀ xs : List PyNum, ¬ (xs.length = 2 ∧ xs.all PyNum.isInstInt = true) →
      get_region_dispatch (.tup xs) = .rejected) := by
  refine ⟨?_, ?_, ?_, ?_, ?_, ?_⟩
  · decide
  · intro q hq
    simp [get_region_dispatch, is_region_index, hq]
  · intro n
    simp [get_region_dispatch, is_region_index]
  · intro q hq
    simp [get_region_dispatch, is_region_index, is_region_coordinates,
      is_iterable_of_certain_length_and_type, hq]
  · intro a b
    simp [get_region_dispatch, is_region_index, is_region_coordinates,
      is_iterable_of_certain_length_and_type, PyNum.isInstInt]
  · intro xs hxs
    have hfalse : (xs.length == 2 && xs.all PyNum.isInstInt) = false := by
      by_contra h
      rw [Bool.not_eq_false, Bool.and_eq_true, beq_iff_eq] at h
      exact hxs ⟨h.1, h.2⟩
    simp [get_region_dispatch, is_region_index, is_region_coordinates,
      is_iterable_of_certain_length_and_type, hfalse]

/-- Witness for C9 at the floats 2.0 and 5/2, the int 7, the pair (1, 2)
and the 3-tuple (1, 2, 3). -/
theorem c9_integral_float_is_region_index_witness :
    get_region_dispatch (.num (.floatVal 2)) = .asIndex ∧
    get_region_dispatch (.num (.floatVal 2)) = .asIndex ∧
    get_region_dispatch (.num (.intVal 7)) = .asIndex ∧
    get_region_dispatch (.num (.floatVal (mkRat 5 2))) = .rejected ∧
    get_region_dispatch (.tup [.intVal 1, .intVal 2]) = .asCoordinates ∧
    get_region_dispatch (.tup [.intVal 1, .intVal 2, .intVal 3]) = .rejected :=
  ⟨c9_integral_float_is_region_index.1,
   c9_integral_float_is_region_index.2.1 2 (by decide),
   c9_integral_float_is_region_index.2.2.1 7,
   c9_integral_float_is_region_index.2.2.2.1 (mkRat 5 2) (by decide),
   c9_integral_float_is_region_index.2.2.2.2.1 1 2,
   c9_integral_float_is_region_index.2.2.2.2.2 [.intVal 1, .intVal 2, .intVal 3]
     (by decide)⟩

/-! ## Format dispatch, adapter property, and reader construction
(image_reader.py `__init__`, image_reader_adaptive.py `adapter`
property and `__init__`, image_reader_directory.py `__init__`,
image.py `reader` property). -/

/-- Backend adapter constructors registered in `FORMAT_ADAPTER_MAP`. -/
inductive AdapterKind where
  | vips
  | slideio
  deriving DecidableEq, Repr

/-- Embeds `FORMAT_ADAPTER_MAP = {"tif": VIPS, "tiff": VIPS, "svs": SlideIO}`
(identical in image_reader.py and image_reader_adaptive.py); `.get` on a
missing key returns `None`. -/
def FORMAT_ADAPTER_MAP (token : String) : Option AdapterKind :=
  if token = "tif" then some .vips
  else if token = "tiff" then some .vips
  else if token = "svs" then some .slideio
  else none

/-- Embeds Python `str.split(sep)` for a one-character separator, over
the string's characters: `"a.b".split('.') == ["a","b"]`,
`"abc".split('.') == ["abc"]`, `"a.".split('.') == ["a",""]`.  The
result is never the empty list. -/
def py_split (sep : Char) : List Char → List (List Char)
  | [] => [[]]
  | c :: cs =>
    let rest := py_split sep cs
    if c = sep then [] :: rest
    else
      match rest with
      | [] => [[c]]
      | r :: rs => (c :: r) :: rs

/-- Embeds the token computation `self.filepath.split('.')[-1]`: the last
piece of splitting on `'.'`, that is the substring after the final dot
(the whole path when there is no dot).  `split` never returns an empty
list, so the default of `getLastD` is never used. -/
def format_token (filepath : String) : String :=
  ((py_split '.' filepath.data).getLastD []).asString

/-- Token the spec describes, stated from the spec's words for
comparison with `format_token`: "derives a format token by taking the
substring after the final `.` in the filepath, lower-cased". -/
def format_token_per_spec (filepath : String) : String :=
  ((format_token filepath).data.map Char.toLower).asString

/-- Embeds the dispatch shared by `ImageReader.__init__` and the
`ImageReaderAdaptive.adapter` getter:
`image_format = self.filepath.split('.')[-1];`
`adapter = FORMAT_ADAPTER_MAP.get(image_format);`
`if adapter is None: raise UnsupportedFormatException(image_format)`. -/
def choose_adapter (filepath : String) : Except Err AdapterKind :=
  let image_format := format_token filepath
  match FORMAT_ADAPTER_MAP image_format with
  | none => .error (.unsupportedFormat image_format)
  | some adapter => .ok adapter

/-- Filesystem view used by the constructors: `os.path.isfile`,
`os.path.isdir` and `os.listdir`; `os.path.exists` is
`isFile || isDir`. -/
structure FileSystem where
  isFile : String → Bool
  isDir : String → Bool
  listDir : String → List String

/-- Embeds the `ImageReaderAdaptive.adapter` property setter:
`if not isinstance(new_adapter, Adapter): raise_type_error(new_adapter);`
`self._adapter = new_adapter`.  `None` is not an `Adapter` instance. -/
def adapter_setter (new_adapter : Option AdapterKind) : Except Err AdapterKind :=
  match new_adapter with
  | none => .error .typeError
  | some a => .ok a

/-- Embeds `ImageReaderAdaptive.__init__`, which runs the base
`ImageReader.__init__(filepath, adapter=None)`: assert
`os.path.isfile(filepath)`; `self.filepath = filepath`; then
`self.adapter = None` — on an `ImageReaderAdaptive` instance this
assignment is intercepted by the class's `adapter` property setter.  The
remaining base-init steps (format dispatch, adapter construction,
the second setter call) are written out but unreachable, because the
setter rejects `None`. -/
def ImageReaderAdaptive_init (fs : FileSystem) (filepath : String) :
    Except Err AdapterKind :=
  if fs.isFile filepath = false then .error .assertionError
  else
    match adapter_setter none with
    | .error e => .error e
    | .ok _ =>
      match choose_adapter filepath with
      | .error e => .error e
      | .ok adapter => adapter_setter (some adapter)

/-- Instance attributes of `ImageReaderDirectory` as assigned (or not)
by its `__init__`: it sets `self.filepath`, never `self._dir`, and
computes `self._region_files` from `self._dir`. -/
structure DirReaderAttrs where
  filepath : Option String
  dirAttr : Option String
  region_files : Option (List String)
  deriving Repr

/-- Fresh instance before `__init__` runs: no attribute assigned. -/
def DirReaderAttrs.empty : DirReaderAttrs := ⟨none, none, none⟩

/-- Reading `self._dir`: Python raises `AttributeError` when the
attribute was never assigned. -/
def DirReaderAttrs.get_dir (st : DirReaderAttrs) : Except Err String :=
  match st.dirAttr with
  | none => .error (.attributeError "_dir")
  | some d => .ok d

/-- Embeds `os.path.join` for the two-argument form used here. -/
def os_path_join (a b : String) : String := a ++ "/" ++ b

/-- Embeds `ImageReaderDirectory.__init__`
(src/unified_image_reader/image_reader_directory.py): check the argument
is a `str` (it is, the model takes a `String`); `os.path.exists`, then
`os.path.isdir`, each raising `DirectoryDoesNotExistException` on
failure; `self.filepath = filepath`; then
`self._region_files = [os.path.join(self._dir, p) for p in os.listdir(self._dir)]`
which begins by reading `self._dir` — an attribute no statement ever
assigned; `self._region_files.sort()` would follow. -/
def ImageReaderDirectory_init (fs : FileSystem) (filepath : String) :
    Except Err DirReaderAttrs :=
  if (fs.isFile filepath || fs.isDir filepath) = false then
    .error .directoryDoesNotExist
  else if fs.isDir filepath = false then .error .directoryDoesNotExist
  else
    let st : DirReaderAttrs := { DirReaderAttrs.empty with filepath := some filepath }
    match st.get_dir with
    | .error e => .error e
    | .ok d =>
      .ok { st with
            region_files :=
              some (((fs.listDir d).map (os_path_join d)).mergeSort (· ≤ ·)) }

/-- Reader resolved by the `Image` facade. -/
inductive Reader where
  | adaptive (adapter : AdapterKind)
  | directory (attrs : DirReaderAttrs)

/-- Embeds the `Image.reader` lazy property (image.py): when unset,
`ImageReaderAdaptive(self.filepath)` for a regular file,
`ImageReaderDirectory(self.filepath)` for a directory,
`FileDoesNotExistException` otherwise. -/
def Image_resolve_reader (fs : FileSystem) (filepath : String) :
    Except Err Reader :=
  if fs.isFile filepath then
    match ImageReaderAdaptive_init fs filepath with
    | .error e => .error e
    | .ok a => .ok (.adaptive a)
  else if fs.isDir filepath then
    match ImageReaderDirectory_init fs filepath with
    | .error e => .error e
    | .ok st => .ok (.directory st)
  else .error .fileDoesNotExist

/-- Concrete filesystem for the witnesses: one regular file
"slide.tif" and one directory "imgs" holding "b.png", "a.png",
"c.png". -/
def demo_fs : FileSystem where
  isFile := fun p => p == "slide.tif"
  isDir := fun p => p == "imgs"
  listDir := fun p => if p == "imgs" then ["b.png", "a.png", "c.png"] else []

/-! ## Theorems for claims C2, C4, C7. -/

/-- Claim C2: for every filepath naming an existing regular file,
`ImageReaderAdaptive(filepath)` raises `TypeError` before any format
dispatch or adapter construction (the base init's `self.adapter = None`
hits the class's adapter setter, which rejects `None`), and the facade's
lazy reader resolution for a regular-file path fails the same way. -/
theorem c2_adaptive_init_type_error
    (fs : FileSystem) (filepath : String) (hfile : fs.isFile filepath = true) :
    ImageReaderAdaptive_init fs filepath = .error .typeError ∧
    Image_resolve_reader fs filepath = .error .typeError := by
  have h1 : ImageReaderAdaptive_init fs filepath = .error .typeError := by
    simp [ImageReaderAdaptive_init, adapter_setter, hfile]
  exact ⟨h1, by simp [Image_resolve_reader, hfile, h1]⟩

/-- Witness for C2 at the regular file "slide.tif" — a path whose format
even has a registered adapter. -/
theorem c2_adaptive_init_type_error_witness :
    ImageReaderAdaptive_init demo_fs "slide.tif" = .error .typeError ∧
    Image_resolve_reader demo_fs "slide.tif" = .error .typeError :=
  c2_adaptive_init_type_error demo_fs "slide.tif" rfl

/-- Claim C4 (code bug): for every filesystem directory,
`ImageReaderDirectory.__init__` fails with `AttributeError` on `_dir`:
it assigns `self.filepath` but then reads `self._dir`, which no
statement ever assigns, so construction never succeeds — against the
claim (and the class's own docstring) that construction over a directory
of image files succeeds and indexing works. -/
theorem c4_directory_reader_construction_fails
    (fs : FileSystem) (filepath : String) (hdir : fs.isDir filepath = true) :
    ImageReaderDirectory_init fs filepath = .error (.attributeError "_dir") := by
  simp [ImageReaderDirectory_init, DirReaderAttrs.get_dir, DirReaderAttrs.empty, hdir]

/-- Witness for C4 at the claim's failing input: the directory "imgs"
containing exactly "b.png", "a.png", "c.png". -/
theorem c4_directory_reader_construction_fails_witness :
    ImageReaderDirectory_init demo_fs "imgs" = .error (.attributeError "_dir") :=
  c4_directory_reader_construction_fails demo_fs "imgs" rfl

/-- Claim C7 counterexample: the code never lower-cases the token.  For
the filepath "slide.TIF" the code's token is "TIF" while the spec's
lower-cased token would be "tif" — a registered format — and
construction fails with `UnsupportedFormatException("TIF")` where the
claim's dispatch would succeed. -/
theorem c7_token_not_lowercased :
    format_token "slide.TIF" = "TIF" ∧
    format_token_per_spec "slide.TIF" = "tif" ∧
    format_token "slide.TIF" ≠ format_token_per_spec "slide.TIF" ∧
    FORMAT_ADAPTER_MAP "tif" = some .vips ∧
    choose_adapter "slide.TIF" = .error (.unsupportedFormat "TIF") := by
  refine ⟨by decide, by decide, by decide, by decide, rfl⟩

/-- Claim C7 amended: the format token is the substring after the final
`.` in the filepath taken verbatim (case-sensitive, no lower-casing), and
when that token has no registered adapter the dispatch fails with
`UnsupportedFormatException` carrying exactly that token (a ".bmp" file
fails carrying "bmp"). -/
theorem c7_dispatch_carries_exact_token
    (filepath : String)
    (h : FORMAT_ADAPTER_MAP (format_token filepath) = none) :
    choose_adapter filepath = .error (.unsupportedFormat (format_token filepath)) := by
  simp [choose_adapter, h]

/-- Witness for C7 (amended) at "image.bmp": fails carrying "bmp". -/
theorem c7_dispatch_carries_exact_token_witness :
    choose_adapter "image.bmp" = .error (.unsupportedFormat "bmp") :=
  c7_dispatch_carries_exact_token "image.bmp" (by decide)

/-! ## Image facade iteration protocol (image.py `__iter__`, `__next__`,
`__len__`).

The facade delegates to its resolved reader: `__next__` compares the
cursor with `self.number_of_regions()` (at the default tile size) and on
a hit calls `self.get_region(self._iter)`.  The reader is abstracted by
its two delegated operations; its count is a `Nat` (both concrete
readers report a non-negative count: a product of floor divisions of
positive values, or a file count).  A `Region` is the returned pixel
buffer (height × width × channels). -/

/-- Decoded pixel buffer returned for a region. -/
def Region : Type := List (List (List Int))

/-- Reader as the facade sees it: `number_of_regions()` and
`get_region(i)` at the facade's default tile size. -/
structure ReaderModel where
  numRegions : Nat
  getRegion : Nat → Except Err Region

/-- Mutable facade state: `self.filepath` and `self._iter`, which
`Image.__init__` sets to `None` and `__iter__` sets to 0. -/
structure ImageState where
  filepath : String
  iterCursor : Option Nat

/-- Embeds `Image.__iter__`: `self._iter = 0; return self` — the
returned value is the updated facade itself. -/
def Image_iter_start (st : ImageState) : ImageState :=
  { st with iterCursor := some 0 }

/-- Embeds one `Image.__next__` call at cursor `cursor`:
`if self._iter >= self.number_of_regions(): raise StopIteration`
(normal sequence termination, modelled as `none`), else
`region = self.get_region(self._iter); self._iter += 1; return region`. -/
def Image_next (r : ReaderModel) (cursor : Nat) :
    Except Err (Option (Region × Nat)) :=
  if cursor ≥ r.numRegions then .ok none
  else
    match r.getRegion cursor with
    | .error e => .error e
    | .ok region => .ok (some (region, cursor + 1))

/-- Regions produced by repeatedly calling `__next__` from cursor
`cursor` until `StopIteration`. -/
def Image_iterFrom (r : ReaderModel) (cursor : Nat) : Except Err (List Region) :=
  if cursor ≥ r.numRegions then .ok []
  else
    match r.getRegion cursor with
    | .error e => .error e
    | .ok region =>
      match Image_iterFrom r (cursor + 1) with
      | .error e => .error e
      | .ok rest => .ok (region :: rest)
termination_by r.numRegions - cursor
decreasing_by omega

/-- Full traversal `for region in image`: `__iter__` (cursor 0) then
`__next__` to exhaustion. -/
def Image_to_list (r : ReaderModel) : Except Err (List Region) :=
  Image_iterFrom r 0

/-- Embeds `Image.__len__`: `return self.number_of_regions()`. -/
def Image_len (r : ReaderModel) : Nat := r.numRegions

/-- Traversal from cursor `c` returns exactly the regions at indices
`c, c+1, ..., numRegions - 1` when every in-range fetch succeeds. -/
theorem Image_iterFrom_ok (r : ReaderModel) (f : Nat → Region)
    (hget : ∀ i, i < r.numRegions → r.getRegion i = .ok (f i)) :
    ∀ n c, r.numRegions - c = n →
      Image_iterFrom r c = .ok ((List.range' c n).map f) := by
  intro n
  induction n with
  | zero =>
    intro c hc
    unfold Image_iterFrom
    rw [if_pos (by omega)]
    simp
  | succ n ih =>
    intro c hc
    have hlt : c < r.numRegions := by omega
    unfold Image_iterFrom
    rw [if_neg (by omega), hget c hlt, ih (c + 1) (by omega)]
    simp [List.range'_succ]

/-- Concrete reader for the facade witnesses: three regions, region `i`
being the 1×1×1 buffer holding `i`. -/
def demo_reader : ReaderModel where
  numRegions := 3
  getRegion := fun i => .ok [[[Int.ofNat i]]]

/-! ## Theorems for claims C8 and C10. -/

/-- Claim C8: for a facade whose reader reports `number_of_regions() = N`
at the default tile size (and whose in-range region fetches succeed, as
they do for both concrete readers), iterating yields exactly the `N`
regions at indices 0 through N-1 in increasing order and then terminates
normally, and `len(image) = N`. -/
theorem c8_iteration_yields_n_regions
    (r : ReaderModel) (N : Nat) (f : Nat → Region)
    (hN : r.numRegions = N)
    (hget : ∀ i, i < N → r.getRegion i = .ok (f i)) :
    Image_to_list r = .ok ((List.range N).map f) ∧
    Image_len r = N := by
  subst hN
  refine ⟨?_, rfl⟩
  have h := Image_iterFrom_ok r f hget r.numRegions 0 (by omega)
  rw [Image_to_list, h, List.range_eq_range']

/-- Witness for C8 at a three-region reader. -/
theorem c8_iteration_yields_n_regions_witness :
    Image_to_list demo_reader = .ok ((List.range 3).map fun i => [[[Int.ofNat i]]]) ∧
    Image_len demo_reader = 3 :=
  c8_iteration_yields_n_regions demo_reader 3 (fun i => [[[Int.ofNat i]]]) rfl
    (fun _ _ => rfl)

/-- Claim C10: `__iter__` always sets the cursor to 0 and returns the
facade itself — in particular, starting a second traversal while one is
mid-flight (cursor at `k`) never fails: it silently resets, and the next
`__next__` call returns the region at index 0. -/
theorem c10_iter_resets_cursor
    (st : ImageState) (k : Nat) (hmid : st.iterCursor = some k)
    (r : ReaderModel) (region0 : Region)
    (hpos : 0 < r.numRegions) (h0 : r.getRegion 0 = .ok region0) :
    Image_iter_start st = { st with iterCursor := some 0 } ∧
    (Image_iter_start st).filepath = st.filepath ∧
    Image_next r 0 = .ok (some (region0, 1)) := by
  refine ⟨rfl, rfl, ?_⟩
  have h1 : ¬ (0 ≥ r.numRegions) := by omega
  simp [Image_next, h1, h0]

/-- Witness for C10: a facade mid-iteration (cursor 2) over the
three-region reader. -/
theorem c10_iter_resets_cursor_witness :
    Image_iter_start ⟨"slide.tif", some 2⟩ =
      { (⟨"slide.tif", some 2⟩ : ImageState) with iterCursor := some 0 } ∧
    (Image_iter_start ⟨"slide.tif", some 2⟩).filepath = "slide.tif" ∧
    Image_next demo_reader 0 = .ok (some ([[[Int.ofNat 0]]], 1)) :=
  c10_iter_resets_cursor ⟨"slide.tif", some 2⟩ 2 rfl demo_reader [[[Int.ofNat 0]]]
    (by decide) rfl

end UnifiedImageReader
